import Mathlib

/-!
Shallow embedding of the dxcore adapter-discovery core
(vendor/github.com/NVIDIA/nvidia-container-toolkit/internal/dxcore/dxcore.c
and dxcore.h), together with theorems settling the specification claims.

Modelling conventions:
* Machine integers (`unsigned int`, `size_t`) are `Nat`; the C `int`
  `initialized` flag is `Int`.  No arithmetic in this module can overflow
  the C types on the inputs the code itself produces, so no `% 2^w` is
  needed (sizes are bounded by `DXCORE_MAX_PATH * sizeof(wchar_t) = 1040`).
* The native library (dlopen handle plus the two resolved entry points)
  is modelled as a record of oracles `dxcore_lib`: each oracle returns
  `none` exactly when the corresponding native call returns a nonzero
  status.  Allocation outcomes (`calloc`/`realloc`/`malloc`) are explicit
  `Bool` parameters, `true` = the allocation succeeds.
* Heap buffers are modelled by their contents (`List Nat`); observable
  side effects (native calls issued, allocations attempted, `free`s
  performed, `dlclose`) are returned as explicit event traces so that
  claims about "no fill query was issued", "the buffer was released" or
  "a second teardown re-frees the same memory" are statable.
* `wcstombs` is modelled for a single-byte-per-character locale (the "C"
  locale the code runs under): each wide character independently either
  converts to one byte or is unconvertible, via an oracle
  `conv : Nat → Option Nat`.  On an unconvertible character `wcstombs`
  stops, having stored the already-converted prefix; the destination
  buffer is `calloc`ed, so unwritten bytes are zero.
-/

namespace Dxcore

/-- DXCORE_MAX_PATH from dxcore.c. -/
def DXCORE_MAX_PATH : Nat := 260

/-- sizeof(wchar_t) on the Linux targets this file is compiled for. -/
def sizeof_wchar : Nat := 4

/-- Value of a C pointer field that the module may leave unwritten:
either never initialized (fresh realloc memory), NULL, or the address of
some object. -/
inductive CPtr where
  | uninit : CPtr
  | null : CPtr
  | addr : Nat → CPtr
deriving DecidableEq

/-- struct dxcore_luid from dxcore.h. -/
structure dxcore_luid where
  lowPart : Nat
  highPart : Int
deriving DecidableEq

/-- struct dxcore_adapterInfo from dxcore.c: the raw candidate record
filled in by D3DKMTEnumAdapters2. -/
structure dxcore_adapterInfo where
  hAdapter : Nat
  AdapterLuid : dxcore_luid
  NumOfSources : Nat
  bPresentMoveRegionsPreferred : Nat
deriving DecidableEq

/-- struct dxcore_adapter from dxcore.h.  `pDriverStorePath` holds the
contents of the owned narrow-string allocation (terminator included).
`driverStoreComponentCount` and `pContext` are declared in the header but
never written anywhere in dxcore.c; `none` / `CPtr.uninit` model the
uninitialized memory realloc hands back for them. -/
structure dxcore_adapter where
  hAdapter : Nat
  wddmVersion : Nat
  pDriverStorePath : List Nat
  driverStoreComponentCount : Option Nat
  pContext : CPtr
deriving DecidableEq

/-- struct dxcore_context from dxcore.h.  `adapterList = none` models a
NULL `struct dxcore_adapter *`; `some l` models a live allocation whose
entries are `l`. -/
structure dxcore_context where
  adapterCount : Nat
  adapterList : Option (List dxcore_adapter)
  initialized : Int
deriving DecidableEq

/-- The entries of the registry the C code considers valid: the first
`adapterCount` slots of the backing store. -/
def registry (c : dxcore_context) : List dxcore_adapter :=
  (c.adapterList.getD []).take c.adapterCount

/-- Well-formedness: the adapter count never exceeds the number of slots
of the backing allocation.  Every context the module itself builds
satisfies this. -/
def ctxWF (c : dxcore_context) : Prop :=
  c.adapterCount ≤ (c.adapterList.getD []).length

/-- Behaviour of the resolved native library entry points, as oracles.
`adapters = none` models the size-probe call of D3DKMTEnumAdapters2
returning a nonzero status; `some cands` models a platform that knows
the candidate list `cands` (it reports `cands.length` in the probe and
writes `cands` in the fill call).  `fillOk = false` models the second
EnumAdapters2 call returning a nonzero status.  `wddmVersion h` is the
driver-model version query for handle `h` (`none` = nonzero status).
`storeSize h` is the OutputValueSize in bytes reported by the
driver-store size probe (`none` = nonzero status); `storeFill h` is the
wide-character payload written by the fill query (`none` = nonzero
status).  `conv` is the per-character wcstombs conversion oracle. -/
structure dxcore_lib where
  adapters : Option (List dxcore_adapterInfo)
  fillOk : Bool
  wddmVersion : Nat → Option Nat
  storeSize : Nat → Option Nat
  storeFill : Nat → Option (List Nat)
  conv : Nat → Option Nat

/-- Observable steps of dxcore_query_adapter_driverstore. -/
inductive DsEvent where
  | sizeProbe : DsEvent
  | allocTemp : DsEvent
  | fillQuery : DsEvent
  | allocOut : Nat → DsEvent
  | freeTemp : DsEvent
deriving DecidableEq

/-- Bytes stored by `wcstombs(dst, src, n)`: converts characters one by
one, stopping after `n` bytes, at an unconvertible character (storing
nothing further), or after converting the terminating null (which is
stored if it fits). -/
def wcstombsWritten (conv : Nat → Option Nat) : List Nat → Nat → List Nat
  | _, 0 => []
  | [], _ + 1 => []
  | c :: rest, n + 1 =>
    if c = 0 then [0]
    else
      match conv c with
      | none => []
      | some b => b :: wcstombsWritten conv rest n

/-- dxcore_query_adapter_driverstore from dxcore.c.  `tempOk` is the
outcome of the calloc of the temporary query buffer, `outOk` the outcome
of the calloc of the narrow output string.  Returns the C result
(`error` = -1, `ok buf` = 0 with `*ppDriverStorePath` an allocation
whose bytes are `buf`) and the trace of observable steps. -/
def dxcore_query_adapter_driverstore (pLib : dxcore_lib) (tempOk outOk : Bool)
    (hAdapter : Nat) : Except Unit (List Nat) × List DsEvent :=
  match pLib.storeSize hAdapter with
  | none => (Except.error (), [DsEvent.sizeProbe])
  | some outputValueSize =>
    if DXCORE_MAX_PATH * sizeof_wchar < outputValueSize then
      (Except.error (), [DsEvent.sizeProbe])
    else
      let outputSize := outputValueSize / sizeof_wchar
      if tempOk = false then
        (Except.error (), [DsEvent.sizeProbe, DsEvent.allocTemp])
      else
        match pLib.storeFill hAdapter with
        | none =>
          (Except.error (),
            [DsEvent.sizeProbe, DsEvent.allocTemp, DsEvent.fillQuery,
              DsEvent.freeTemp])
        | some written =>
          let pOutput :=
            (written ++ List.replicate outputSize 0).take outputSize ++ [0]
          if outOk = false then
            (Except.error (),
              [DsEvent.sizeProbe, DsEvent.allocTemp, DsEvent.fillQuery,
                DsEvent.allocOut (outputSize + 1), DsEvent.freeTemp])
          else
            let wr := wcstombsWritten pLib.conv pOutput outputSize
            (Except.ok (wr ++ List.replicate (outputSize + 1 - wr.length) 0),
              [DsEvent.sizeProbe, DsEvent.allocTemp, DsEvent.fillQuery,
                DsEvent.allocOut (outputSize + 1), DsEvent.freeTemp])

/-- Allocation outcomes for one dxcore_add_adapter call: the calloc of
the temporary query buffer, the calloc of the narrow output string
(both inside dxcore_query_adapter_driverstore), and the realloc growing
the registry backing store. -/
structure AddAllocs where
  tempOk : Bool
  outOk : Bool
  reallocOk : Bool
deriving DecidableEq

/-- Contents of a fresh, never-written realloc slot. -/
def uninit_adapter : dxcore_adapter :=
  { hAdapter := 0, wddmVersion := 0, pDriverStorePath := [],
    driverStoreComponentCount := none, pContext := CPtr.uninit }

/-- Effect of `realloc(list, sizeof(adapter) * (count + 1))` followed by
writing the new entry at index `count`: the old occupied slots are
preserved, any slot between the old allocation's end and `count` is
uninitialized memory, and the new entry sits at index `count`. -/
def reallocGrow (l : List dxcore_adapter) (count : Nat) (a : dxcore_adapter) :
    List dxcore_adapter :=
  l.take count ++ List.replicate (count - l.length) uninit_adapter ++ [a]

/-- dxcore_add_adapter from dxcore.c.  Returns the updated context and
the list of path buffers released by `free(driverStorePath)` on the
realloc-failure path (empty otherwise). -/
def dxcore_add_adapter (pLib : dxcore_lib) (al : AddAllocs)
    (pCtx : dxcore_context) (pAdapterInfo : dxcore_adapterInfo) :
    dxcore_context × List (List Nat) :=
  match pLib.wddmVersion pAdapterInfo.hAdapter with
  | none => (pCtx, [])
  | some wddmVersion =>
    if wddmVersion < 2700 then (pCtx, [])
    else
      match (dxcore_query_adapter_driverstore pLib al.tempOk al.outOk
          pAdapterInfo.hAdapter).1 with
      | Except.error _ => (pCtx, [])
      | Except.ok driverStorePath =>
        if al.reallocOk then
          ({ pCtx with
              adapterList := some (reallocGrow (pCtx.adapterList.getD [])
                pCtx.adapterCount
                { hAdapter := pAdapterInfo.hAdapter,
                  wddmVersion := wddmVersion,
                  pDriverStorePath := driverStorePath,
                  driverStoreComponentCount := none,
                  pContext := CPtr.uninit }),
              adapterCount := pCtx.adapterCount + 1 }, [])
        else (pCtx, [driverStorePath])

/-- The enumeration loop of dxcore_enum_adapters: each candidate is paired
with the allocation outcomes of its dxcore_add_adapter call; released path
buffers are concatenated in order. -/
def dxcore_process_adapters (pLib : dxcore_lib) :
    dxcore_context → List (dxcore_adapterInfo × AddAllocs) →
    dxcore_context × List (List Nat)
  | pCtx, [] => (pCtx, [])
  | pCtx, (info, al) :: rest =>
    let r := dxcore_add_adapter pLib al pCtx info
    let r2 := dxcore_process_adapters pLib r.1 rest
    (r2.1, r.2 ++ r2.2)

/-- Observable steps of dxcore_enum_adapters: the size-probe call (with
its status), the malloc of the candidate buffer (with its outcome), and
the fill call (recording whether the buffer pointer passed is non-null
and the NumAdapters value passed). -/
inductive EnumEvent where
  | countProbe : Bool → EnumEvent
  | allocBuf : Bool → EnumEvent
  | fillCall : Bool → Nat → EnumEvent
deriving DecidableEq

/-- dxcore_enum_adapters from dxcore.c.  `enumAllocOk` is the outcome of
the unchecked `malloc(sizeof(adapterInfo) * NumAdapters)`; `allocs i`
gives the allocation outcomes used while adding candidate `i`.  Returns
the event trace and `some (ctx, freedPaths)` for a defined execution;
`none` when execution reaches undefined behaviour, namely the fill call
being issued with a null candidate buffer and a nonzero NumAdapters. -/
def dxcore_enum_adapters (pLib : dxcore_lib) (allocs : Nat → AddAllocs)
    (enumAllocOk : Bool) (pCtx : dxcore_context) :
    List EnumEvent × Option (dxcore_context × List (List Nat)) :=
  match pLib.adapters with
  | none => ([EnumEvent.countProbe false], some (pCtx, []))
  | some cands =>
    if enumAllocOk = false ∧ 0 < cands.length then
      ([EnumEvent.countProbe true, EnumEvent.allocBuf false,
          EnumEvent.fillCall false cands.length], none)
    else if pLib.fillOk = false then
      ([EnumEvent.countProbe true, EnumEvent.allocBuf enumAllocOk,
          EnumEvent.fillCall enumAllocOk cands.length], some (pCtx, []))
    else
      ([EnumEvent.countProbe true, EnumEvent.allocBuf enumAllocOk,
          EnumEvent.fillCall enumAllocOk cands.length],
        some (dxcore_process_adapters pLib pCtx
          (cands.zip ((List.range cands.length).map allocs))))

/-- Observable free operations performed by dxcore_deinit_context: the
`free(pAdapter->pDriverStorePath)` of each visited adapter (recording the
buffer contents being freed) and the `free(pCtx->adapterList)` of the
backing store when the pointer is non-null (`free(NULL)` is a no-op and
is not recorded). -/
inductive FreeEvent where
  | freePath : List Nat → FreeEvent
  | freeList : FreeEvent
deriving DecidableEq

/-- dxcore_deinit_context from dxcore.c.  `none` models a NULL
`struct dxcore_context *`, which the code tolerates.  The loop visits
`adapterCount` slots of the backing store and frees each slot's path;
then the backing store itself is freed; only the `initialized` field is
written back — `adapterCount` and `adapterList` are left as they were.
Returns the written-back context and the frees performed. -/
def dxcore_deinit_context :
    Option dxcore_context → Option dxcore_context × List FreeEvent
  | none => (none, [])
  | some pCtx =>
    let pathFrees :=
      match pCtx.adapterList with
      | none => []
      | some l =>
        (l.take pCtx.adapterCount).map fun a => FreeEvent.freePath a.pDriverStorePath
    let listFrees :=
      match pCtx.adapterList with
      | none => []
      | some _ => [FreeEvent.freeList]
    (some { pCtx with initialized := 0 }, pathFrees ++ listFrees)

/-- Outcomes of the dynamic-loading steps of dxcore_init_context plus the
behaviour of the loaded library: `libLoadOk` is the dlopen of
libdxcore.so, `enumAdapters2Ok` the dlsym of D3DKMTEnumAdapters2,
`queryAdapterInfoOk` the dlsym of D3DKMTQueryAdapterInfo. -/
structure SysEnv where
  libLoadOk : Bool
  enumAdapters2Ok : Bool
  queryAdapterInfoOk : Bool
  lib : dxcore_lib

/-- Observable steps of dxcore_init_context. -/
inductive InitEvent where
  | dlopenCall : Bool → InitEvent
  | dlsymEnum : Bool → InitEvent
  | dlsymQuery : Bool → InitEvent
  | deinitCalled : InitEvent
  | dlcloseCall : InitEvent
deriving DecidableEq

/-- dxcore_init_context from dxcore.c.  The function first resets the
session fields to zero, so its result does not depend on the incoming
contents of `*pCtx`; the reset state is `zeroCtx` below.  Returns
`some (returnCode, finalContext)` for a defined execution (`none` when
enumeration reached undefined behaviour) together with the trace.  On
the error path the session is torn down via dxcore_deinit_context and,
when dlopen succeeded, the library is dlclosed. -/
def zeroCtx : dxcore_context :=
  { adapterCount := 0, adapterList := none, initialized := 0 }

/-- dxcore_init_context from dxcore.c (see `zeroCtx` above). -/
def dxcore_init_context (env : SysEnv) (allocs : Nat → AddAllocs)
    (enumAllocOk : Bool) :
    Option (Int × dxcore_context) × List InitEvent :=
  if env.libLoadOk = false then
    ((dxcore_deinit_context (some zeroCtx)).1.map fun c => ((-1 : Int), c),
      [InitEvent.dlopenCall false, InitEvent.deinitCalled])
  else if env.enumAdapters2Ok = false then
    ((dxcore_deinit_context (some zeroCtx)).1.map fun c => ((-1 : Int), c),
      [InitEvent.dlopenCall true, InitEvent.dlsymEnum false,
        InitEvent.deinitCalled, InitEvent.dlcloseCall])
  else if env.queryAdapterInfoOk = false then
    ((dxcore_deinit_context (some zeroCtx)).1.map fun c => ((-1 : Int), c),
      [InitEvent.dlopenCall true, InitEvent.dlsymEnum true,
        InitEvent.dlsymQuery false, InitEvent.deinitCalled,
        InitEvent.dlcloseCall])
  else
    match (dxcore_enum_adapters env.lib allocs enumAllocOk zeroCtx).2 with
    | none =>
      (none,
        [InitEvent.dlopenCall true, InitEvent.dlsymEnum true,
          InitEvent.dlsymQuery true])
    | some r =>
      (some ((0 : Int), { r.1 with initialized := 1 }),
        [InitEvent.dlopenCall true, InitEvent.dlsymEnum true,
          InitEvent.dlsymQuery true, InitEvent.dlcloseCall])

/-! ### Helper lemmas -/

theorem wcstombsWritten_length_le (conv : Nat → Option Nat) :
    ∀ (src : List Nat) (n : Nat), (wcstombsWritten conv src n).length ≤ n := by
  intro src n
  induction n generalizing src with
  | zero => cases src <;> simp [wcstombsWritten]
  | succ n ih =>
    cases src with
    | nil => simp [wcstombsWritten]
    | cons c rest =>
      by_cases hc : c = 0
      · simp [wcstombsWritten, hc]
      · simp only [wcstombsWritten, if_neg hc]
        cases hcv : conv c with
        | none => simp
        | some b => simpa using ih rest

theorem wcstombsWritten_all_conv (conv : Nat → Option Nat) (g : Nat → Nat) :
    ∀ (ws suffix : List Nat), (∀ c ∈ ws, c ≠ 0) →
      (∀ c ∈ ws, conv c = some (g c)) →
      wcstombsWritten conv (ws ++ suffix) ws.length = ws.map g := by
  intro ws
  induction ws with
  | nil => intro suffix _ _; simp [wcstombsWritten]
  | cons c rest ih =>
    intro suffix hnz hcv
    have hc : c ≠ 0 := hnz c (by simp)
    have hcc : conv c = some (g c) := hcv c (by simp)
    simp only [List.cons_append, List.length_cons, wcstombsWritten, if_neg hc, hcc,
      List.map_cons]
    exact congrArg (List.cons (g c))
      (ih suffix (fun x hx => hnz x (by simp [hx])) (fun x hx => hcv x (by simp [hx])))

theorem add_adapter_count_of_ok (pLib : dxcore_lib) (al : AddAllocs)
    (pCtx : dxcore_context) (info : dxcore_adapterInfo) (v : Nat) (path : List Nat)
    (hv : pLib.wddmVersion info.hAdapter = some v) (hge : 2700 ≤ v)
    (hq : (dxcore_query_adapter_driverstore pLib al.tempOk al.outOk info.hAdapter).1 =
      Except.ok path)
    (hre : al.reallocOk = true) :
    (dxcore_add_adapter pLib al pCtx info).1 =
      { pCtx with
          adapterList := some (reallocGrow (pCtx.adapterList.getD [])
            pCtx.adapterCount
            { hAdapter := info.hAdapter, wddmVersion := v,
              pDriverStorePath := path, driverStoreComponentCount := none,
              pContext := CPtr.uninit }),
          adapterCount := pCtx.adapterCount + 1 } := by
  have hnlt : ¬ v < 2700 := Nat.not_lt.mpr hge
  simp only [dxcore_add_adapter, hv, hnlt, if_false, hq, hre, if_true]

theorem registry_reallocGrow (pCtx : dxcore_context) (a : dxcore_adapter)
    (hwf : ctxWF pCtx) :
    (reallocGrow (pCtx.adapterList.getD []) pCtx.adapterCount a).take
        (pCtx.adapterCount + 1) = registry pCtx ++ [a] := by
  unfold reallocGrow registry
  unfold ctxWF at hwf
  rw [Nat.sub_eq_zero_of_le hwf]
  simp only [List.replicate_zero, List.append_nil]
  apply List.take_of_length_le
  simp

theorem registry_add_of_ok (pLib : dxcore_lib) (al : AddAllocs)
    (pCtx : dxcore_context) (info : dxcore_adapterInfo) (v : Nat) (path : List Nat)
    (hwf : ctxWF pCtx)
    (hv : pLib.wddmVersion info.hAdapter = some v) (hge : 2700 ≤ v)
    (hq : (dxcore_query_adapter_driverstore pLib al.tempOk al.outOk info.hAdapter).1 =
      Except.ok path)
    (hre : al.reallocOk = true) :
    registry (dxcore_add_adapter pLib al pCtx info).1 =
      registry pCtx ++
        [{ hAdapter := info.hAdapter, wddmVersion := v, pDriverStorePath := path,
           driverStoreComponentCount := none, pContext := CPtr.uninit }] := by
  rw [add_adapter_count_of_ok pLib al pCtx info v path hv hge hq hre]
  unfold registry
  simp only [Option.getD_some]
  exact registry_reallocGrow pCtx _ hwf

theorem ctxWF_add_adapter (pLib : dxcore_lib) (al : AddAllocs)
    (pCtx : dxcore_context) (info : dxcore_adapterInfo)
    (hwf : ctxWF pCtx) :
    ctxWF (dxcore_add_adapter pLib al pCtx info).1 := by
  unfold dxcore_add_adapter
  cases hv : pLib.wddmVersion info.hAdapter with
  | none => exact hwf
  | some v =>
    by_cases hlt : v < 2700
    · simp only [if_pos hlt]; exact hwf
    · simp only [if_neg hlt]
      cases hq : (dxcore_query_adapter_driverstore pLib al.tempOk al.outOk
          info.hAdapter).1 with
      | error e => exact hwf
      | ok path =>
        by_cases hre : al.reallocOk
        · simp only [if_pos hre]
          unfold ctxWF at hwf ⊢
          unfold reallocGrow
          simp only [Option.getD_some, List.length_append, List.length_take,
            List.length_replicate, List.length_cons, List.length_nil]
          omega
        · simp only [if_neg hre]; exact hwf

theorem add_adapter_invariant (pLib : dxcore_lib) (al : AddAllocs)
    (pCtx : dxcore_context) (info : dxcore_adapterInfo)
    (hwf : ctxWF pCtx) (hver : ∀ a ∈ registry pCtx, 2700 ≤ a.wddmVersion) :
    ∀ a ∈ registry (dxcore_add_adapter pLib al pCtx info).1, 2700 ≤ a.wddmVersion := by
  unfold dxcore_add_adapter
  cases hv : pLib.wddmVersion info.hAdapter with
  | none => exact hver
  | some v =>
    by_cases hlt : v < 2700
    · simp only [if_pos hlt]; exact hver
    · simp only [if_neg hlt]
      cases hq : (dxcore_query_adapter_driverstore pLib al.tempOk al.outOk
          info.hAdapter).1 with
      | error e => exact hver
      | ok path =>
        by_cases hre : al.reallocOk
        · simp only [if_pos hre]
          intro a ha
          unfold registry at ha
          simp only [Option.getD_some] at ha
          rw [registry_reallocGrow pCtx _ hwf] at ha
          rcases List.mem_append.mp ha with h | h
          · exact hver a h
          · simp only [List.mem_singleton] at h
            subst h
            exact Nat.not_lt.mp hlt
        · simp only [if_neg hre]; exact hver

theorem process_adapters_invariant (pLib : dxcore_lib) :
    ∀ (l : List (dxcore_adapterInfo × AddAllocs)) (pCtx : dxcore_context),
      ctxWF pCtx → (∀ a ∈ registry pCtx, 2700 ≤ a.wddmVersion) →
      ctxWF (dxcore_process_adapters pLib pCtx l).1 ∧
        ∀ a ∈ registry (dxcore_process_adapters pLib pCtx l).1,
          2700 ≤ a.wddmVersion := by
  intro l
  induction l with
  | nil => intro pCtx h1 h2; exact ⟨h1, h2⟩
  | cons p rest ih =>
    obtain ⟨info, al⟩ := p
    intro pCtx h1 h2
    have h1' := ctxWF_add_adapter pLib al pCtx info h1
    have h2' := add_adapter_invariant pLib al pCtx info h1 h2
    simpa [dxcore_process_adapters] using
      ih (dxcore_add_adapter pLib al pCtx info).1 h1' h2'

theorem enum_adapters_invariant (pLib : dxcore_lib) (allocs : Nat → AddAllocs)
    (eak : Bool) (pCtx : dxcore_context) (r : dxcore_context × List (List Nat))
    (hwf : ctxWF pCtx) (hver : ∀ a ∈ registry pCtx, 2700 ≤ a.wddmVersion)
    (hr : (dxcore_enum_adapters pLib allocs eak pCtx).2 = some r) :
    ctxWF r.1 ∧ ∀ a ∈ registry r.1, 2700 ≤ a.wddmVersion := by
  unfold dxcore_enum_adapters at hr
  cases hc : pLib.adapters with
  | none =>
    simp only [hc, Option.some.injEq] at hr
    rw [← hr]
    exact ⟨hwf, hver⟩
  | some cands =>
    simp only [hc] at hr
    by_cases h1 : eak = false ∧ 0 < cands.length
    · rw [if_pos h1] at hr
      exact absurd hr (by simp)
    · rw [if_neg h1] at hr
      by_cases h2 : pLib.fillOk = false
      · rw [if_pos h2] at hr
        simp only [Option.some.injEq] at hr
        rw [← hr]
        exact ⟨hwf, hver⟩
      · rw [if_neg h2] at hr
        simp only [Option.some.injEq] at hr
        rw [← hr]
        exact process_adapters_invariant pLib _ pCtx hwf hver

theorem enum_adapters_total (pLib : dxcore_lib) (allocs : Nat → AddAllocs)
    (pCtx : dxcore_context) :
    ∃ r, (dxcore_enum_adapters pLib allocs true pCtx).2 = some r ∧
      ((pLib.adapters = none ∨ pLib.fillOk = false) → r = (pCtx, [])) := by
  unfold dxcore_enum_adapters
  cases hc : pLib.adapters with
  | none => exact ⟨(pCtx, []), rfl, fun _ => rfl⟩
  | some cands =>
    by_cases h2 : pLib.fillOk = false
    · refine ⟨(pCtx, []), ?_, fun _ => rfl⟩
      simp [h2]
    · refine ⟨dxcore_process_adapters pLib pCtx
        (cands.zip ((List.range cands.length).map allocs)), ?_, ?_⟩
      · simp [h2]
      · intro h
        rcases h with h | h
        · exact absurd h (by simp)
        · exact absurd h h2

theorem init_context_registry_invariant (env : SysEnv) (allocs : Nat → AddAllocs)
    (eak : Bool) (rc : Int) (c : dxcore_context)
    (hr : (dxcore_init_context env allocs eak).1 = some (rc, c)) :
    ∀ a ∈ registry c, 2700 ≤ a.wddmVersion := by
  unfold dxcore_init_context at hr
  by_cases h1 : env.libLoadOk = false
  · rw [if_pos h1] at hr
    simp [dxcore_deinit_context] at hr
    rw [← hr.2]
    intro a ha
    simp [registry, zeroCtx] at ha
  · rw [if_neg h1] at hr
    by_cases h2 : env.enumAdapters2Ok = false
    · rw [if_pos h2] at hr
      simp [dxcore_deinit_context] at hr
      rw [← hr.2]
      intro a ha
      simp [registry, zeroCtx] at ha
    · rw [if_neg h2] at hr
      by_cases h3 : env.queryAdapterInfoOk = false
      · rw [if_pos h3] at hr
        simp [dxcore_deinit_context] at hr
        rw [← hr.2]
        intro a ha
        simp [registry, zeroCtx] at ha
      · rw [if_neg h3] at hr
        cases he : (dxcore_enum_adapters env.lib allocs eak zeroCtx).2 with
        | none => rw [he] at hr; exact absurd hr (by simp)
        | some r =>
          rw [he] at hr
          simp only [Option.some.injEq, Prod.mk.injEq] at hr
          have hinv := enum_adapters_invariant env.lib allocs eak zeroCtx r
            (by simp [ctxWF, zeroCtx]) (by simp [registry, zeroCtx]) he
          rw [← hr.2]
          intro a ha
          exact hinv.2 a (by simpa [registry] using ha)

/-! ### Claim theorems -/

/-- Concrete adapter entry used to exhibit the behaviour of
dxcore_deinit_context on a populated session. -/
def exAdapter1 : dxcore_adapter :=
  { hAdapter := 7, wddmVersion := 2700, pDriverStorePath := [67, 0],
    driverStoreComponentCount := none, pContext := CPtr.uninit }

/-- Concrete populated session used to exhibit the behaviour of
dxcore_deinit_context. -/
def exCtx1 : dxcore_context :=
  { adapterCount := 1, adapterList := some [exAdapter1], initialized := 1 }

/-- C1 counterexample: on a session holding one adapter,
dxcore_deinit_context does not leave the adapter count at 0 (it leaves it
at 1), and a second consecutive call is not a no-op: it performs frees
again.  This refutes the claim that teardown resets the session to its
zero state and is idempotent. -/
theorem C1_deinit_counterexample :
    ¬ (((dxcore_deinit_context (some exCtx1)).1.map dxcore_context.adapterCount =
          some 0) ∧
        (dxcore_deinit_context ((dxcore_deinit_context (some exCtx1)).1)).2 = []) := by
  decide

/-- C1 (amended): dxcore_deinit_context tolerates a null session pointer
and writes 0 to the initialized flag, but it leaves adapterCount and the
adapterList pointer unchanged — the session is not reset to its zero
state and the adapter count is not 0 afterwards.  A second consecutive
call writes back the same state but re-issues exactly the same sequence
of frees as the first call (freeing each adapter path and the list
again), so it is not a no-op on a session that held any adapter. -/
theorem C1_deinit_amended (c : dxcore_context) :
    dxcore_deinit_context none = (none, []) ∧
    (dxcore_deinit_context (some c)).1 = some { c with initialized := 0 } ∧
    (dxcore_deinit_context ((dxcore_deinit_context (some c)).1)).1 =
      (dxcore_deinit_context (some c)).1 ∧
    (dxcore_deinit_context ((dxcore_deinit_context (some c)).1)).2 =
      (dxcore_deinit_context (some c)).2 := by
  exact ⟨rfl, rfl, rfl, rfl⟩

/-- C2: the WDDM driver-model version gate `wddmVersion < 2700` is a
closed lower bound at the integer code 2700: a candidate answering
exactly 2700 is appended (the adapter count grows by one) when its path
query succeeds and the realloc succeeds; a candidate answering 2699 is
skipped with the context unchanged; and every adapter in the registry of
any context produced by dxcore_init_context has version ≥ 2700. -/
theorem C2_min_driver_model_version_gate :
    (∀ (pLib : dxcore_lib) (al : AddAllocs) (pCtx : dxcore_context)
        (info : dxcore_adapterInfo) (path : List Nat),
      pLib.wddmVersion info.hAdapter = some 2700 →
      al.reallocOk = true →
      (dxcore_query_adapter_driverstore pLib al.tempOk al.outOk
          info.hAdapter).1 = Except.ok path →
      (dxcore_add_adapter pLib al pCtx info).1.adapterCount =
        pCtx.adapterCount + 1) ∧
    (∀ (pLib : dxcore_lib) (al : AddAllocs) (pCtx : dxcore_context)
        (info : dxcore_adapterInfo),
      pLib.wddmVersion info.hAdapter = some 2699 →
      dxcore_add_adapter pLib al pCtx info = (pCtx, [])) ∧
    (∀ (env : SysEnv) (allocs : Nat → AddAllocs) (eak : Bool) (rc : Int)
        (c : dxcore_context),
      (dxcore_init_context env allocs eak).1 = some (rc, c) →
      ∀ a ∈ registry c, 2700 ≤ a.wddmVersion) := by
  refine ⟨?_, ?_, ?_⟩
  · intro pLib al pCtx info path hv hre hq
    rw [add_adapter_count_of_ok pLib al pCtx info 2700 path hv (Nat.le_refl 2700)
      hq hre]
  · intro pLib al pCtx info hv
    simp [dxcore_add_adapter, hv]
  · exact init_context_registry_invariant

/-- C3: when the size probe reports N bytes (character count
n = N / sizeof(wchar_t)) within bounds, the fill query succeeds with an
n-character payload whose characters are nonzero and all convertible,
and both allocations succeed, dxcore_query_adapter_driverstore returns
success with a non-null narrow string: the backing allocation holds
exactly n + 1 bytes, its content is the wide payload converted character
for character, and it is null-terminated.  With N = 0 this specialises
to success with an empty (single zero byte) string, and with a
13-character payload to an equal 13-character string in a 14-byte
allocation. -/
theorem C3_driverstore_path_roundtrip (pLib : dxcore_lib) (hA N : Nat)
    (written : List Nat) (g : Nat → Nat)
    (hsz : pLib.storeSize hA = some N)
    (hb : N ≤ DXCORE_MAX_PATH * sizeof_wchar)
    (hf : pLib.storeFill hA = some written)
    (hlen : written.length = N / sizeof_wchar)
    (hnz : ∀ c ∈ written, c ≠ 0)
    (hcv : ∀ c ∈ written, pLib.conv c = some (g c)) :
    (dxcore_query_adapter_driverstore pLib true true hA).1 =
        Except.ok (written.map g ++ [0]) ∧
      (written.map g ++ [0]).length = N / sizeof_wchar + 1 ∧
      DsEvent.allocOut (N / sizeof_wchar + 1) ∈
        (dxcore_query_adapter_driverstore pLib true true hA).2 := by
  have hnlt : ¬ DXCORE_MAX_PATH * sizeof_wchar < N := Nat.not_lt.mpr hb
  have htake : (written ++ List.replicate (N / sizeof_wchar) 0).take
      (N / sizeof_wchar) = written := by
    rw [← hlen]
    exact List.take_left written _
  have hwr : wcstombsWritten pLib.conv
      ((written ++ List.replicate (N / sizeof_wchar) 0).take (N / sizeof_wchar) ++
        [0]) (N / sizeof_wchar) = written.map g := by
    rw [htake, ← hlen]
    exact wcstombsWritten_all_conv pLib.conv g written [0] hnz hcv
  have hone : N / sizeof_wchar + 1 - (written.map g).length = 1 := by
    rw [List.length_map, hlen]
    omega
  have hval : dxcore_query_adapter_driverstore pLib true true hA =
      (Except.ok (written.map g ++ [0]),
        [DsEvent.sizeProbe, DsEvent.allocTemp, DsEvent.fillQuery,
          DsEvent.allocOut (N / sizeof_wchar + 1), DsEvent.freeTemp]) := by
    unfold dxcore_query_adapter_driverstore
    simp only [hsz]
    rw [if_neg hnlt]
    simp only [hf, hwr, hone, List.replicate_one]
    simp
  refine ⟨by rw [hval], ?_, by rw [hval]; simp⟩
  simp [hlen]

/-- C10: the return value of wcstombs is ignored, so for any conversion
oracle — including ones under which some wide characters are
unconvertible, leaving the narrow string truncated or empty — a
driver-store query whose probe, bounds check, fill call and allocations
all pass returns success, and the returned buffer is nevertheless always
null-terminated: it holds characterCount + 1 zero-initialized bytes and
wcstombs writes at most characterCount of them, so the byte at index
characterCount is always 0. -/
theorem C10_wcstombs_result_ignored (pLib : dxcore_lib) (hA N : Nat)
    (written : List Nat)
    (hsz : pLib.storeSize hA = some N)
    (hb : N ≤ DXCORE_MAX_PATH * sizeof_wchar)
    (hf : pLib.storeFill hA = some written) :
    ∃ buf, (dxcore_query_adapter_driverstore pLib true true hA).1 =
        Except.ok buf ∧
      buf.length = N / sizeof_wchar + 1 ∧
      buf.getD (N / sizeof_wchar) 1 = 0 := by
  have hnlt : ¬ DXCORE_MAX_PATH * sizeof_wchar < N := Nat.not_lt.mpr hb
  set n := N / sizeof_wchar with hn
  set wr := wcstombsWritten pLib.conv
    ((written ++ List.replicate n 0).take n ++ [0]) n with hwrdef
  have hwrle : wr.length ≤ n := wcstombsWritten_length_le pLib.conv _ n
  refine ⟨wr ++ List.replicate (n + 1 - wr.length) 0, ?_, ?_, ?_⟩
  · unfold dxcore_query_adapter_driverstore
    simp only [hsz]
    rw [if_neg hnlt]
    simp only [hf]
    simp
  · simp only [List.length_append, List.length_replicate]
    omega
  · rw [List.getD_append_right _ _ _ _ hwrle]
    rw [List.getD_eq_getElem _ _ (by simp only [List.length_replicate]; omega)]
    simp

/-- C4: if dlopen of libdxcore.so fails, or dlsym of either
D3DKMTEnumAdapters2 or D3DKMTQueryAdapterInfo fails, dxcore_init_context
returns -1 with a session whose adapter count is 0 (torn down via
dxcore_deinit_context before returning), and when the library had been
loaded it is dlclosed before returning. -/
theorem C4_init_fatal_failure (env : SysEnv) (allocs : Nat → AddAllocs)
    (eak : Bool)
    (h : env.libLoadOk = false ∨ env.enumAdapters2Ok = false ∨
      env.queryAdapterInfoOk = false) :
    (∃ c, (dxcore_init_context env allocs eak).1 = some (-1, c) ∧
      c.adapterCount = 0 ∧ c.adapterList = none ∧ c.initialized = 0) ∧
    InitEvent.deinitCalled ∈ (dxcore_init_context env allocs eak).2 ∧
    (env.libLoadOk = true →
      InitEvent.dlcloseCall ∈ (dxcore_init_context env allocs eak).2) := by
  by_cases h1 : env.libLoadOk = false
  · unfold dxcore_init_context
    rw [if_pos h1]
    exact ⟨⟨{ zeroCtx with initialized := 0 }, rfl, rfl, rfl, rfl⟩,
      by decide, fun ht => by rw [h1] at ht; cases ht⟩
  · unfold dxcore_init_context
    rw [if_neg h1]
    by_cases h2 : env.enumAdapters2Ok = false
    · rw [if_pos h2]
      exact ⟨⟨{ zeroCtx with initialized := 0 }, rfl, rfl, rfl, rfl⟩,
        by decide, fun _ => by decide⟩
    · rw [if_neg h2]
      by_cases h3 : env.queryAdapterInfoOk = false
      · rw [if_pos h3]
        exact ⟨⟨{ zeroCtx with initialized := 0 }, rfl, rfl, rfl, rfl⟩,
          by decide, fun _ => by decide⟩
      · rcases h with h | h | h
        exacts [absurd h h1, absurd h h2, absurd h h3]

/-- C5: when the realloc growing the registry fails for a candidate that
passed both queries, dxcore_add_adapter returns the context unchanged
(same adapter count, same entries) and frees exactly the candidate's
resolved path buffer; and the enumeration loop then processes the
remaining candidates exactly as if that candidate had never existed,
instead of aborting. -/
theorem C5_transactional_registry_append (pLib : dxcore_lib) (al : AddAllocs)
    (pCtx : dxcore_context) (info : dxcore_adapterInfo) (v : Nat)
    (path : List Nat)
    (hv : pLib.wddmVersion info.hAdapter = some v) (hge : 2700 ≤ v)
    (hq : (dxcore_query_adapter_driverstore pLib al.tempOk al.outOk
      info.hAdapter).1 = Except.ok path)
    (hre : al.reallocOk = false) :
    dxcore_add_adapter pLib al pCtx info = (pCtx, [path]) ∧
    ∀ rest, dxcore_process_adapters pLib pCtx ((info, al) :: rest) =
      ((dxcore_process_adapters pLib pCtx rest).1,
        path :: (dxcore_process_adapters pLib pCtx rest).2) := by
  have hnlt : ¬ v < 2700 := Nat.not_lt.mpr hge
  have hadd : dxcore_add_adapter pLib al pCtx info = (pCtx, [path]) := by
    simp only [dxcore_add_adapter, hv, hnlt, if_false, hq, hre]
    simp
  refine ⟨hadd, fun rest => ?_⟩
  simp [dxcore_process_adapters, hadd]

/-- C6: when the size probe reports an OutputValueSize strictly larger
than DXCORE_MAX_PATH wide characters in bytes,
dxcore_query_adapter_driverstore returns an error having performed only
the size probe — no temporary allocation, no fill query, no output
allocation — and any candidate with that handle is skipped by
dxcore_add_adapter, leaving the context unchanged. -/
theorem C6_oversized_path_rejected (pLib : dxcore_lib) (hA N : Nat)
    (hsz : pLib.storeSize hA = some N)
    (hover : DXCORE_MAX_PATH * sizeof_wchar < N) :
    (∀ tempOk outOk : Bool,
      dxcore_query_adapter_driverstore pLib tempOk outOk hA =
        (Except.error (), [DsEvent.sizeProbe])) ∧
    ∀ (al : AddAllocs) (pCtx : dxcore_context) (info : dxcore_adapterInfo),
      info.hAdapter = hA → dxcore_add_adapter pLib al pCtx info = (pCtx, []) := by
  have herr : ∀ tempOk outOk : Bool,
      dxcore_query_adapter_driverstore pLib tempOk outOk hA =
        (Except.error (), [DsEvent.sizeProbe]) := by
    intro t o
    unfold dxcore_query_adapter_driverstore
    simp only [hsz]
    rw [if_pos hover]
  refine ⟨herr, ?_⟩
  intro al pCtx info hh
  cases hv : pLib.wddmVersion info.hAdapter with
  | none => simp [dxcore_add_adapter, hv]
  | some v =>
    by_cases hlt : v < 2700
    · simp [dxcore_add_adapter, hv, hlt]
    · have hqe : (dxcore_query_adapter_driverstore pLib al.tempOk al.outOk
          info.hAdapter).1 = Except.error () := by
        rw [hh, herr al.tempOk al.outOk]
      simp [dxcore_add_adapter, hv, hlt, hqe]

/-- C7: whenever dlopen succeeds and both entry points resolve (and the
candidate-buffer malloc succeeds), dxcore_init_context returns 0 with
the session marked initialized, for every behaviour of the library —
including a failing probe call or a failing fill call, in which case the
candidate sequence is empty and the session holds 0 adapters, still
reported as success. -/
theorem C7_per_candidate_failures_nonfatal (env : SysEnv)
    (allocs : Nat → AddAllocs)
    (h1 : env.libLoadOk = true) (h2 : env.enumAdapters2Ok = true)
    (h3 : env.queryAdapterInfoOk = true) :
    ∃ c, (dxcore_init_context env allocs true).1 = some (0, c) ∧
      c.initialized = 1 ∧
      ((env.lib.adapters = none ∨ env.lib.fillOk = false) →
        c.adapterCount = 0) := by
  obtain ⟨r, hr, hempty⟩ := enum_adapters_total env.lib allocs zeroCtx
  have h1' : ¬ env.libLoadOk = false := by simp [h1]
  have h2' : ¬ env.enumAdapters2Ok = false := by simp [h2]
  have h3' : ¬ env.queryAdapterInfoOk = false := by simp [h3]
  refine ⟨{ r.1 with initialized := 1 }, ?_, rfl, ?_⟩
  · unfold dxcore_init_context
    rw [if_neg h1', if_neg h2', if_neg h3']
    simp only [hr]
  · intro hcase
    rw [hempty hcase]
    rfl

/-- C9: the malloc of the candidate buffer between the two
EnumAdapters2 calls is unchecked: when it fails while the probe reported
a nonzero NumAdapters, the fill call is still issued with a null buffer
pointer and that nonzero count, and the embedded enumeration reaches
undefined behaviour (result none); with a successful allocation, or with
NumAdapters = 0, enumeration is total. -/
theorem C9_unchecked_candidate_malloc (pLib : dxcore_lib)
    (allocs : Nat → AddAllocs) (pCtx : dxcore_context)
    (cands : List dxcore_adapterInfo)
    (hc : pLib.adapters = some cands) (hn : 0 < cands.length) :
    (dxcore_enum_adapters pLib allocs false pCtx).2 = none ∧
    EnumEvent.fillCall false cands.length ∈
      (dxcore_enum_adapters pLib allocs false pCtx).1 ∧
    (∀ (pLib2 : dxcore_lib) (allocs2 : Nat → AddAllocs)
        (pCtx2 : dxcore_context),
      (dxcore_enum_adapters pLib2 allocs2 true pCtx2).2 ≠ none) ∧
    (∀ (pLib2 : dxcore_lib) (allocs2 : Nat → AddAllocs)
        (pCtx2 : dxcore_context),
      pLib2.adapters = some [] →
      (dxcore_enum_adapters pLib2 allocs2 false pCtx2).2 ≠ none) := by
  refine ⟨?_, ?_, ?_, ?_⟩
  · unfold dxcore_enum_adapters
    simp [hc, hn]
  · unfold dxcore_enum_adapters
    simp [hc, hn]
  · intro pLib2 allocs2 pCtx2
    obtain ⟨r, hr, _⟩ := enum_adapters_total pLib2 allocs2 pCtx2
    simp [hr]
  · intro pLib2 allocs2 pCtx2 h0
    by_cases hf : pLib2.fillOk = false <;>
      simp [dxcore_enum_adapters, h0, hf]

/-- Concrete library behaviour under which every qualification step
succeeds, used to exhibit what dxcore_add_adapter stores. -/
def exLib8 : dxcore_lib :=
  { adapters := some [], fillOk := true,
    wddmVersion := fun _ => some 2700,
    storeSize := fun _ => some 0,
    storeFill := fun _ => some [],
    conv := fun c => some c }

/-- Allocation outcomes with every allocation succeeding. -/
def exAllocsOk : AddAllocs := { tempOk := true, outOk := true, reallocOk := true }

/-- Concrete qualified candidate with LUID (1, 2). -/
def exInfoA : dxcore_adapterInfo :=
  { hAdapter := 5, AdapterLuid := { lowPart := 1, highPart := 2 },
    NumOfSources := 1, bPresentMoveRegionsPreferred := 0 }

/-- Concrete qualified candidate identical to exInfoA except for its
LUID, which is (3, 4). -/
def exInfoB : dxcore_adapterInfo :=
  { hAdapter := 5, AdapterLuid := { lowPart := 3, highPart := 4 },
    NumOfSources := 1, bPresentMoveRegionsPreferred := 0 }

/-- C8 counterexample: two candidates that differ only in their LUID
produce identical contexts after a successful append — the registry
entry retains no LUID at all (struct dxcore_adapter has no such field)
— and the appended entry's pContext back-reference is the uninitialized
realloc memory, not the address of any session.  This refutes the claim
that the new registry entry's luid equals the candidate's luid and that
its session back-reference points to the session being populated. -/
theorem C8_luid_backref_counterexample :
    (dxcore_add_adapter exLib8 exAllocsOk zeroCtx exInfoA).1 =
        (dxcore_add_adapter exLib8 exAllocsOk zeroCtx exInfoB).1 ∧
      (registry (dxcore_add_adapter exLib8 exAllocsOk zeroCtx exInfoA).1).map
          dxcore_adapter.pContext = [CPtr.uninit] ∧
      ∀ a : Nat, CPtr.uninit ≠ CPtr.addr a := by
  refine ⟨by decide, by decide, ?_⟩
  intro a h
  exact CPtr.noConfusion h

/-- C8 (amended): a successfully appended registry entry carries the
candidate's platform handle, the queried driver-model version and the
resolved owned driver-store path, but nothing else: the candidate's LUID
is not stored (the registry record has no LUID field), and the
`pContext` back-reference and `driverStoreComponentCount` fields of the
new entry are left as uninitialized realloc memory, not set to the
session being populated. -/
theorem C8_registry_entry_contents (pLib : dxcore_lib) (al : AddAllocs)
    (pCtx : dxcore_context) (info : dxcore_adapterInfo) (v : Nat)
    (path : List Nat)
    (hwf : ctxWF pCtx)
    (hv : pLib.wddmVersion info.hAdapter = some v) (hge : 2700 ≤ v)
    (hq : (dxcore_query_adapter_driverstore pLib al.tempOk al.outOk
      info.hAdapter).1 = Except.ok path)
    (hre : al.reallocOk = true) :
    registry (dxcore_add_adapter pLib al pCtx info).1 =
      registry pCtx ++
        [{ hAdapter := info.hAdapter, wddmVersion := v,
           pDriverStorePath := path, driverStoreComponentCount := none,
           pContext := CPtr.uninit }] :=
  registry_add_of_ok pLib al pCtx info v path hwf hv hge hq hre

/-! ### Witnesses instantiating the hypotheses of the claim theorems -/

/-- C2 witness: a concrete candidate whose version query answers exactly
2700 and whose path query succeeds is appended, growing the count from 0
to 1. -/
theorem C2_min_driver_model_version_gate_witness :
    exLib8.wddmVersion exInfoA.hAdapter = some 2700 ∧
    exAllocsOk.reallocOk = true ∧
    (dxcore_query_adapter_driverstore exLib8 exAllocsOk.tempOk
        exAllocsOk.outOk exInfoA.hAdapter).1 = Except.ok [0] ∧
    (dxcore_add_adapter exLib8 exAllocsOk zeroCtx exInfoA).1.adapterCount =
      zeroCtx.adapterCount + 1 :=
  ⟨rfl, rfl, rfl,
    C2_min_driver_model_version_gate.1 exLib8 exAllocsOk zeroCtx exInfoA
      [0] rfl rfl rfl⟩

/-- Wide-character codes of the 13-character path C:\drivers\v1. -/
def exPath13 : List Nat :=
  [67, 58, 92, 100, 114, 105, 118, 101, 114, 115, 92, 118, 49]

/-- Concrete library reporting a 52-byte (13-character) driver-store
path, with the identity single-byte conversion. -/
def exLib3 : dxcore_lib :=
  { adapters := some [], fillOk := true,
    wddmVersion := fun _ => some 2700,
    storeSize := fun _ => some 52,
    storeFill := fun _ => some exPath13,
    conv := fun c => some c }

/-- C3 witness: the 13-character path round-trips into an equal
13-character narrow string inside a 14-byte allocation. -/
theorem C3_driverstore_path_roundtrip_witness :
    exLib3.storeSize 5 = some 52 ∧
    52 ≤ DXCORE_MAX_PATH * sizeof_wchar ∧
    exLib3.storeFill 5 = some exPath13 ∧
    exPath13.length = 52 / sizeof_wchar ∧
    (∀ c ∈ exPath13, c ≠ 0) ∧
    (∀ c ∈ exPath13, exLib3.conv c = some (id c)) ∧
    ((dxcore_query_adapter_driverstore exLib3 true true 5).1 =
        Except.ok (exPath13.map id ++ [0]) ∧
      (exPath13.map id ++ [0]).length = 52 / sizeof_wchar + 1 ∧
      DsEvent.allocOut (52 / sizeof_wchar + 1) ∈
        (dxcore_query_adapter_driverstore exLib3 true true 5).2) :=
  ⟨rfl, by decide, rfl, by decide, by decide, by decide,
    C3_driverstore_path_roundtrip exLib3 5 52 exPath13 id rfl (by decide) rfl
      (by decide) (by decide) (by decide)⟩

/-- Concrete library whose driver-store payload is entirely
unconvertible under the conversion oracle. -/
def exLib10 : dxcore_lib :=
  { adapters := some [], fillOk := true,
    wddmVersion := fun _ => some 2700,
    storeSize := fun _ => some 8,
    storeFill := fun _ => some [70000, 70001],
    conv := fun _ => none }

/-- C10 witness: with every wide character unconvertible the query still
returns success, and the 3-byte buffer is null-terminated (in fact all
zeros: the string is empty). -/
theorem C10_wcstombs_result_ignored_witness :
    exLib10.storeSize 5 = some 8 ∧
    8 ≤ DXCORE_MAX_PATH * sizeof_wchar ∧
    exLib10.storeFill 5 = some [70000, 70001] ∧
    (∃ buf, (dxcore_query_adapter_driverstore exLib10 true true 5).1 =
        Except.ok buf ∧
      buf.length = 8 / sizeof_wchar + 1 ∧
      buf.getD (8 / sizeof_wchar) 1 = 0) :=
  ⟨rfl, by decide, rfl,
    C10_wcstombs_result_ignored exLib10 5 8 [70000, 70001] rfl (by decide) rfl⟩

/-- Environment whose dlopen of libdxcore.so fails. -/
def exEnv4 : SysEnv :=
  { libLoadOk := false, enumAdapters2Ok := true, queryAdapterInfoOk := true,
    lib := exLib8 }

/-- C4 witness: with dlopen failing, init returns -1 with a torn-down
session holding 0 adapters. -/
theorem C4_init_fatal_failure_witness :
    exEnv4.libLoadOk = false ∧
    ((∃ c, (dxcore_init_context exEnv4 (fun _ => exAllocsOk) true).1 =
          some (-1, c) ∧
        c.adapterCount = 0 ∧ c.adapterList = none ∧ c.initialized = 0) ∧
      InitEvent.deinitCalled ∈
        (dxcore_init_context exEnv4 (fun _ => exAllocsOk) true).2 ∧
      (exEnv4.libLoadOk = true →
        InitEvent.dlcloseCall ∈
          (dxcore_init_context exEnv4 (fun _ => exAllocsOk) true).2)) :=
  ⟨rfl, C4_init_fatal_failure exEnv4 (fun _ => exAllocsOk) true (Or.inl rfl)⟩

/-- Allocation outcomes whose registry realloc fails. -/
def exAllocsNoRealloc : AddAllocs :=
  { tempOk := true, outOk := true, reallocOk := false }

/-- C5 witness: a fully qualified candidate whose registry realloc fails
leaves the empty context unchanged and frees its one-byte path buffer. -/
theorem C5_transactional_registry_append_witness :
    exLib8.wddmVersion exInfoA.hAdapter = some 2700 ∧
    2700 ≤ 2700 ∧
    (dxcore_query_adapter_driverstore exLib8 exAllocsNoRealloc.tempOk
        exAllocsNoRealloc.outOk exInfoA.hAdapter).1 = Except.ok [0] ∧
    exAllocsNoRealloc.reallocOk = false ∧
    (dxcore_add_adapter exLib8 exAllocsNoRealloc zeroCtx exInfoA =
        (zeroCtx, [[0]]) ∧
      ∀ rest, dxcore_process_adapters exLib8 zeroCtx
          ((exInfoA, exAllocsNoRealloc) :: rest) =
        ((dxcore_process_adapters exLib8 zeroCtx rest).1,
          [0] :: (dxcore_process_adapters exLib8 zeroCtx rest).2)) :=
  ⟨rfl, by decide, rfl, rfl,
    C5_transactional_registry_append exLib8 exAllocsNoRealloc zeroCtx exInfoA
      2700 [0] rfl (by decide) rfl rfl⟩

/-- Concrete library reporting a 2000-byte OutputValueSize, above the
1040-byte bound. -/
def exLib6 : dxcore_lib :=
  { adapters := some [], fillOk := true,
    wddmVersion := fun _ => some 2700,
    storeSize := fun _ => some 2000,
    storeFill := fun _ => some [],
    conv := fun c => some c }

/-- C6 witness: a 2000-byte reported size is rejected after the probe
alone and the candidate with that handle is skipped. -/
theorem C6_oversized_path_rejected_witness :
    exLib6.storeSize 5 = some 2000 ∧
    DXCORE_MAX_PATH * sizeof_wchar < 2000 ∧
    ((∀ tempOk outOk : Bool,
        dxcore_query_adapter_driverstore exLib6 tempOk outOk 5 =
          (Except.error (), [DsEvent.sizeProbe])) ∧
      ∀ (al : AddAllocs) (pCtx : dxcore_context) (info : dxcore_adapterInfo),
        info.hAdapter = 5 →
        dxcore_add_adapter exLib6 al pCtx info = (pCtx, [])) :=
  ⟨rfl, by decide, C6_oversized_path_rejected exLib6 5 2000 rfl (by decide)⟩

/-- Environment where loading and symbol resolution succeed but the
enumeration probe call fails. -/
def exEnv7 : SysEnv :=
  { libLoadOk := true, enumAdapters2Ok := true, queryAdapterInfoOk := true,
    lib := { adapters := none, fillOk := true,
             wddmVersion := fun _ => some 2700,
             storeSize := fun _ => some 0,
             storeFill := fun _ => some [],
             conv := fun c => some c } }

/-- C7 witness: with the probe call failing, init still returns 0 with
an initialized session holding 0 adapters. -/
theorem C7_per_candidate_failures_nonfatal_witness :
    exEnv7.libLoadOk = true ∧ exEnv7.enumAdapters2Ok = true ∧
    exEnv7.queryAdapterInfoOk = true ∧
    (∃ c, (dxcore_init_context exEnv7 (fun _ => exAllocsOk) true).1 =
        some (0, c) ∧
      c.initialized = 1 ∧
      ((exEnv7.lib.adapters = none ∨ exEnv7.lib.fillOk = false) →
        c.adapterCount = 0)) :=
  ⟨rfl, rfl, rfl,
    C7_per_candidate_failures_nonfatal exEnv7 (fun _ => exAllocsOk) rfl rfl rfl⟩

/-- Concrete library reporting one candidate adapter. -/
def exLib9 : dxcore_lib :=
  { adapters := some [exInfoA], fillOk := true,
    wddmVersion := fun _ => some 2700,
    storeSize := fun _ => some 0,
    storeFill := fun _ => some [],
    conv := fun c => some c }

/-- C9 witness: with one reported candidate and the buffer malloc
failing, the fill call is issued with a null buffer and count 1 and the
run is undefined. -/
theorem C9_unchecked_candidate_malloc_witness :
    exLib9.adapters = some [exInfoA] ∧
    0 < ([exInfoA] : List dxcore_adapterInfo).length ∧
    ((dxcore_enum_adapters exLib9 (fun _ => exAllocsOk) false zeroCtx).2 =
        none ∧
      EnumEvent.fillCall false ([exInfoA] : List dxcore_adapterInfo).length ∈
        (dxcore_enum_adapters exLib9 (fun _ => exAllocsOk) false zeroCtx).1 ∧
      (∀ (pLib2 : dxcore_lib) (allocs2 : Nat → AddAllocs)
          (pCtx2 : dxcore_context),
        (dxcore_enum_adapters pLib2 allocs2 true pCtx2).2 ≠ none) ∧
      (∀ (pLib2 : dxcore_lib) (allocs2 : Nat → AddAllocs)
          (pCtx2 : dxcore_context),
        pLib2.adapters = some [] →
        (dxcore_enum_adapters pLib2 allocs2 false pCtx2).2 ≠ none)) :=
  ⟨rfl, by decide,
    C9_unchecked_candidate_malloc exLib9 (fun _ => exAllocsOk) zeroCtx
      [exInfoA] rfl (by decide)⟩

/-- C8 witness: appending a qualified candidate to the empty session
yields a registry holding exactly the entry with its handle, version
2700, owned path buffer, and uninitialized back-reference fields. -/
theorem C8_registry_entry_contents_witness :
    ctxWF zeroCtx ∧
    exLib8.wddmVersion exInfoA.hAdapter = some 2700 ∧
    2700 ≤ 2700 ∧
    (dxcore_query_adapter_driverstore exLib8 exAllocsOk.tempOk
        exAllocsOk.outOk exInfoA.hAdapter).1 = Except.ok [0] ∧
    exAllocsOk.reallocOk = true ∧
    registry (dxcore_add_adapter exLib8 exAllocsOk zeroCtx exInfoA).1 =
      registry zeroCtx ++
        [{ hAdapter := exInfoA.hAdapter, wddmVersion := 2700,
           pDriverStorePath := [0], driverStoreComponentCount := none,
           pContext := CPtr.uninit }] :=
  ⟨by simp [ctxWF, zeroCtx], rfl, by decide, rfl, rfl,
    C8_registry_entry_contents exLib8 exAllocsOk zeroCtx exInfoA 2700 [0]
      (by simp [ctxWF, zeroCtx]) rfl (by decide) rfl rfl⟩

end Dxcore
